import Mathlib

/-!
# Verification of the undercloud preflight validation engine

Shallow embedding of `tripleoclient/v1/undercloud_preflight.py` (Python 2).

Modelling conventions:

* Python exceptions become an explicit `Exn` sum type threaded through
  `Except Exn`.  `sys.exit(1)` in the top-level handler becomes the
  `CheckOutcome.failed` constructor; an exception that none of the three
  `except` clauses of `check()` matches becomes `CheckOutcome.uncaught`.
* Host probing (`psutil`, `os.path.isfile`, `hostnamectl` output,
  `netifaces.interfaces()`, the os-net-config JSON file) is modelled by an
  explicit `HostState` record; external command invocations themselves are
  modelled as succeeding, with their observable outputs drawn from that
  record.
* The `netaddr` library (the version contemporary with this source,
  0.7.x) is modelled explicitly: addresses are a family tag (4 or 6)
  together with their numeric value; `IPAddress` comparison is
  lexicographic on `(version, value)`; `IPNetwork.__contains__` compares
  raw integer values; `IPRange(start, end)` parses `end` forced to the
  version of `start` and requires `start <= end`.  The textual parsers
  accept dotted-quad IPv4 (decimal octets) and colon-separated IPv6 with
  at most one double-colon, the forms this code's configuration values
  take.
* String manipulation is re-implemented structurally over `List Char`
  (`String.data`) so that every definition evaluates by kernel reduction.
-/

set_option maxRecDepth 10000

namespace UndercloudPreflight

/-- Python exception classes that can escape the functions of this module.
`failedValidation` is the module's own `FailedValidation`; the others are
builtin (or `netaddr`) exception classes. -/
inductive Exn where
  | keyError (msg : String)
  | failedValidation (msg : String)
  | runtimeError (msg : String)
  | addrFormatError (msg : String)
  | nameError (msg : String)
  | indexError
deriving DecidableEq, Repr

/-- A `netaddr.IPAddress` value: the IP version (4 or 6) and the numeric
(network-byte-order integer) value of the address. -/
structure IPAddr where
  version : Nat
  val : Nat
deriving DecidableEq, Repr

/-- A `netaddr.IPNetwork` value: the address as given (host bits kept,
exposed as `.ip` in netaddr) plus the prefix length. -/
structure IPNetwork where
  ip : IPAddr
  prefixlen : Nat
deriving DecidableEq, Repr

/-! ## Character-list string utilities

Structural re-implementations of the Python string operations used by the
source (`str.split`, `str.lstrip`, `str.startswith`, `str.replace`,
`','.join`, int parsing), defined over `String.data` so they reduce in the
kernel. -/

/-- Value of a decimal digit character. -/
def decDigit (c : Char) : Option Nat :=
  if '0' ≤ c ∧ c ≤ '9' then some (c.toNat - 48) else none

def decValAux : List Char → Nat → Option Nat
  | [], acc => some acc
  | c :: cs, acc =>
    match decDigit c with
    | some d => decValAux cs (acc * 10 + d)
    | none => none

/-- Decimal value of a nonempty all-digit character list (Python `int(s)`
restricted to the nonnegative decimal forms this module feeds it). -/
def decVal : List Char → Option Nat
  | [] => none
  | c :: cs => decValAux (c :: cs) 0

/-- Value of a hexadecimal digit character. -/
def hexDigit (c : Char) : Option Nat :=
  if '0' ≤ c ∧ c ≤ '9' then some (c.toNat - 48)
  else if 'a' ≤ c ∧ c ≤ 'f' then some (c.toNat - 87)
  else if 'A' ≤ c ∧ c ≤ 'F' then some (c.toNat - 55)
  else none

def hexValAux : List Char → Nat → Option Nat
  | [], acc => some acc
  | c :: cs, acc =>
    match hexDigit c with
    | some d => hexValAux cs (acc * 16 + d)
    | none => none

def splitOnCharAux (sep : Char) : List Char → List Char → List (List Char)
  | [], acc => [acc.reverse]
  | c :: cs, acc =>
    if c = sep then acc.reverse :: splitOnCharAux sep cs []
    else splitOnCharAux sep cs (c :: acc)

/-- Python `s.split(sep)` for a single-character separator. -/
def splitOnChar (sep : Char) (l : List Char) : List (List Char) :=
  splitOnCharAux sep l []

/-- Python `s.split(',')` returning strings. -/
def strSplitOnChar (sep : Char) (s : String) : List String :=
  (splitOnChar sep s.data).map String.mk

/-- Python `s.split()` (whitespace split, empty fields dropped). -/
def splitWhitespaceStr (s : String) : List String :=
  ((splitOnChar ' ' s.data).filter (fun w => w ≠ [])).map String.mk

/-- Python `s.lstrip()`. -/
def lstripStr (s : String) : String :=
  String.mk (s.data.dropWhile (fun c => c = ' ' ∨ c = '\t'))

/-- Python `s.startswith(c)` for a single character. -/
def startsWithChar (s : String) (c : Char) : Bool :=
  match s.data with
  | [] => false
  | d :: _ => d = c

/-- Python `", ".join(l)`. -/
def joinCommaSpace : List String → String
  | [] => ""
  | [s] => s
  | s :: rest => s ++ ", " ++ joinCommaSpace rest

/-- Python `option.replace('.', '/')` (single-character pattern). -/
def dotToSlash (s : String) : String :=
  String.mk (s.data.map (fun c => if c = '.' then '/' else c))

/-! ## The netaddr model -/

/-- One dotted-quad octet: decimal, at most 255. -/
def parseOctet (l : List Char) : Option Nat :=
  match decVal l with
  | some n => if n ≤ 255 then some n else none
  | none => none

/-- Numeric value of a dotted-quad IPv4 address literal. -/
def parseIPv4 (l : List Char) : Option Nat :=
  match splitOnChar '.' l with
  | [a, b, c, d] =>
    match parseOctet a, parseOctet b, parseOctet c, parseOctet d with
    | some w, some x, some y, some z => some (((w * 256 + x) * 256 + y) * 256 + z)
    | _, _, _, _ => none
  | _ => none

/-- One IPv6 hex group: one to four hex digits. -/
def parseHexGroup (l : List Char) : Option Nat :=
  if l.length = 0 ∨ 4 < l.length then none else hexValAux l 0

def parseGroups : List (List Char) → Option (List Nat)
  | [] => some []
  | g :: gs =>
    match parseHexGroup g, parseGroups gs with
    | some v, some vs => some (v :: vs)
    | _, _ => none

def groupsVal (gs : List Nat) : Nat :=
  gs.foldl (fun acc g => acc * 65536 + g) 0

/-- Split a character list at the first occurrence of a double colon. -/
def splitDC : List Char → Option (List Char × List Char)
  | ':' :: ':' :: rest => some ([], rest)
  | c :: rest =>
    match splitDC rest with
    | some p => some (c :: p.1, p.2)
    | none => none
  | [] => none

/-- Numeric value of a colon-separated IPv6 address literal with at most
one `::` compression. -/
def parseIPv6 (l : List Char) : Option Nat :=
  match splitDC l with
  | none =>
    match parseGroups (splitOnChar ':' l) with
    | some gs => if gs.length = 8 then some (groupsVal gs) else none
    | none => none
  | some (lhs, rhs) =>
    let lparts := if lhs = [] then [] else splitOnChar ':' lhs
    let rparts := if rhs = [] then [] else splitOnChar ':' rhs
    match parseGroups lparts, parseGroups rparts with
    | some ls, some rs =>
      if ls.length + rs.length ≤ 7 then
        some (groupsVal (ls ++ List.replicate (8 - ls.length - rs.length) 0 ++ rs))
      else none
    | _, _ => none

/-- `netaddr.IPAddress(s)`: try IPv4 dotted quad, then IPv6; on failure
raise `netaddr.core.AddrFormatError`. -/
def netaddr_IPAddress (s : String) : Except Exn IPAddr :=
  match parseIPv4 s.data with
  | some v => .ok ⟨4, v⟩
  | none =>
    match parseIPv6 s.data with
    | some v => .ok ⟨6, v⟩
    | none => .error (.addrFormatError ("failed to detect a valid IP address from " ++ s))

/-- Bit width of an address family. -/
def famWidth (version : Nat) : Nat :=
  if version = 6 then 128 else 32

/-- `netaddr.IPNetwork(s)`: `addr[/prefixlen]`, the prefix defaulting to
the full width of the family. -/
def netaddr_IPNetwork (s : String) : Except Exn IPNetwork :=
  match splitOnChar '/' s.data with
  | [addr] =>
    match netaddr_IPAddress (String.mk addr) with
    | .ok a => .ok ⟨a, famWidth a.version⟩
    | .error e => .error e
  | [addr, plen] =>
    match netaddr_IPAddress (String.mk addr), decVal plen with
    | .ok a, some n =>
      if n ≤ famWidth a.version then .ok ⟨a, n⟩
      else .error (.addrFormatError ("invalid prefix for a CIDR: " ++ s))
    | _, _ => .error (.addrFormatError ("invalid IPNetwork " ++ s))
  | _ => .error (.addrFormatError ("invalid IPNetwork " ++ s))

/-- Number of host bits of a network. -/
def hostBits (n : IPNetwork) : Nat :=
  famWidth n.ip.version - n.prefixlen

/-- `IPNetwork.network`: the address value with the host bits cleared. -/
def netFirst (n : IPNetwork) : Nat :=
  n.ip.val / 2 ^ hostBits n * 2 ^ hostBits n

/-- `IPNetwork.broadcast`: the last address value of the block. -/
def netLast (n : IPNetwork) : Nat :=
  netFirst n + (2 ^ hostBits n - 1)

/-- `IPAddress in IPNetwork` as implemented by netaddr 0.7
(`__contains__` compares the raw integer values of the network and
broadcast addresses, with no version check). -/
def ipnetwork_contains (n : IPNetwork) (a : IPAddr) : Bool :=
  decide (netFirst n ≤ a.val) && decide (a.val ≤ netLast n)

/-- Strict `<` on `netaddr.IPAddress` values: lexicographic on
`(version, value)` (netaddr `sort_key`).  Mixed families compare
silently, IPv4 sorting before IPv6. -/
def ipaddr_lt (a b : IPAddr) : Bool :=
  decide (a.version < b.version) ||
    (decide (a.version = b.version) && decide (a.val < b.val))

/-- `>=` on `netaddr.IPAddress` values: the negation of the strict
lexicographic `<`. -/
def ipaddr_ge (a b : IPAddr) : Bool :=
  !(ipaddr_lt a b)

/-- `netaddr.IPRange(start, end)`: parse `start`, parse `end` forced to
the version of `start` (a mismatched family is an `AddrFormatError`),
and require `start <= end`. -/
def netaddr_IPRange (start stop : String) : Except Exn (IPAddr × IPAddr) :=
  match netaddr_IPAddress start with
  | .error e => .error e
  | .ok a =>
    match netaddr_IPAddress stop with
    | .error e => .error e
    | .ok b =>
      if a.version ≠ b.version then
        .error (.addrFormatError ("failed to detect a valid IP address from " ++ stop))
      else if b.val < a.val then
        .error (.addrFormatError "lower bound IP greater than upper bound")
      else .ok (a, b)

deriving instance DecidableEq for Except

/-! ## Configuration snapshot and host state -/

/-- One subnet group of the configuration (`CONF.get(subnet)`).  The
inspection range is kept as the raw comma-separated string, as in the
config. -/
structure SubnetProps where
  cidr : String
  gateway : String
  dhcp_start : String
  dhcp_end : String
  inspection_iprange : String
deriving DecidableEq, Repr

/-- The slice of the global `CONF` object read by the preflight checks.
String options whose only use is Python truthiness
(`undercloud_service_certificate`) are modelled as `Bool`. -/
structure Conf where
  undercloud_hostname : Option String
  local_ip : String
  local_subnet : String
  local_interface : String
  undercloud_nameservers : List String
  undercloud_service_certificate : Bool
  generate_service_certificate : Bool
  enable_ui : Bool
  net_config_override : Bool
  undercloud_public_host : String
  undercloud_admin_host : String
  custom_env_files : List String
  subnets : List (String × SubnetProps)
deriving DecidableEq, Repr

/-- One element of the `addresses` list of an os-net-config entry. -/
structure AddressEntry where
  ip_netmask : String
deriving DecidableEq, Repr

/-- One element of the `network_config` list of
`/etc/os-net-config/config.json`. -/
structure NetworkEntry where
  name : String
  addresses : List AddressEntry
deriving DecidableEq, Repr

/-- The parsed content of `/etc/os-net-config/config.json`. -/
structure NetworkConfig where
  network_config : List NetworkEntry
deriving DecidableEq, Repr

/-- Observable host state read by the checks: command outputs,
`/etc/hosts` lines, memory sizes in bytes, existing `/proc` and other
files, enumerated interfaces, and the prior os-net-config file (`none`
when absent). -/
structure HostState where
  static_hostname : String
  transient_hostname : String
  etc_hosts_lines : List String
  mem_total : Nat
  swap_total : Nat
  if_inet6_exists : Bool
  proc_sys_files : List String
  stackrc_exists : Bool
  passwords_file_exists : Bool
  interfaces : List String
  os_net_config : Option NetworkConfig
deriving DecidableEq, Repr

/-- `REQUIRED_MB`: 8 GB with a little room for platform variation. -/
def REQUIRED_MB : Nat := 7680

/-- Modelled from the spec: the fixed, constants-derived path of the
generated-passwords file (`constants.UNDERCLOUD_OUTPUT_DIR` lives in the
`tripleoclient.constants` module, which is outside the provided
sources). -/
def PASSWORD_PATH : String := "~/undercloud-passwords.conf"

/-! ## The individual checks -/

/-- `_check_hostname`: the optional `hostnamectl set-hostname` call and
the `sed` remediation are commands modelled as succeeding; the static and
transient hostnames are the (already `rstrip`ped) command outputs held in
the host state. -/
def _check_hostname (host : HostState) : Except Exn Unit :=
  let static := host.static_hostname
  let transient := host.transient_hostname
  if static ≠ transient then
    .error (.runtimeError "Static and transient hostnames do not match")
  else if host.etc_hosts_lines.any (fun line =>
      !(startsWithChar (lstripStr line) '#') &&
        (splitWhitespaceStr line).contains static) then
    .ok ()
  else
    let short := (strSplitOnChar '.' static).headD ""
    if short = static then
      .error (.runtimeError "Configured hostname is not fully qualified.")
    else
      .ok ()

/-- `_check_memory`: physical plus swap bytes, converted to MB by two
integer divisions by 1024 (Python 2 `/` on ints). -/
def _check_memory (host : HostState) : Except Exn Unit :=
  let total_mb := (host.mem_total + host.swap_total) / 1024 / 1024
  if total_mb < REQUIRED_MB then
    .error (.runtimeError "Insufficient memory available")
  else
    .ok ()

/-- `_check_ipv6_enabled`: `/proc/net/if_inet6` exists. -/
def _check_ipv6_enabled (host : HostState) : Bool :=
  host.if_inet6_exists

/-- The `/proc/sys` path of a sysctl option. -/
def sysctl_path (opt : String) : String :=
  "/proc/sys/" ++ dotToSlash opt

/-- The sysctl options examined, the IPv6 one only when the IPv6 proc
interface is present. -/
def sysctl_options (host : HostState) : List String :=
  ["net.ipv4.ip_forward", "net.ipv4.ip_nonlocal_bind"] ++
    (if _check_ipv6_enabled host then ["net.ipv6.ip_nonlocal_bind"] else [])

/-- The `not_available` accumulation loop of `_check_sysctl`. -/
def sysctl_missing (host : HostState) : List String :=
  (sysctl_options host).filter (fun opt => !(sysctl_path opt ∈ host.proc_sys_files))

/-- The single `LOG.error` line `_check_sysctl` emits on failure, listing
every missing option. -/
def sysctl_failure_message (not_available : List String) : String :=
  "Required sysctl options are not available. Check that your kernel is up to date. Missing: "
    ++ joinCommaSpace not_available

/-- `_check_sysctl`, instrumented with the error-log line it writes. -/
def _check_sysctl_log (host : HostState) : List String × Except Exn Unit :=
  let not_available := sysctl_missing host
  if not_available ≠ [] then
    ([sysctl_failure_message not_available], .error (.runtimeError "Missing sysctl options"))
  else
    ([], .ok ())

/-- `_check_sysctl`. -/
def _check_sysctl (host : HostState) : Except Exn Unit :=
  (_check_sysctl_log host).2

/-- The inner `is_ip` helper of `_validate_ips`. -/
def is_ip (value : String) (param_name : String) : Except Exn Unit :=
  match netaddr_IPAddress value with
  | .error _ =>
    .error (.failedValidation (param_name ++ " " ++ value ++ " must be a valid IP address"))
  | .ok _ => .ok ()

/-- The `for ip in CONF.undercloud_nameservers` loop of `_validate_ips`. -/
def validate_ns_list : List String → Except Exn Unit
  | [] => .ok ()
  | ip :: rest => do
    is_ip ip "undercloud_nameservers"
    validate_ns_list rest

/-- `_validate_ips`. -/
def _validate_ips (conf : Conf) : Except Exn Unit :=
  validate_ns_list conf.undercloud_nameservers

/-- The `local_ip` half of `_validate_value_formats`: the whole `try`
block, with the two in-block `AddrFormatError` raises and the `except`
clause that converts any `AddrFormatError` into `FailedValidation`. -/
def validateLocalIPCIDR (local_ip : String) : Except Exn Unit :=
  let wrap := fun inner =>
    Exn.failedValidation
      ("local_ip " ++ local_ip ++ " not valid: " ++ inner ++ " Value must be in CIDR format.")
  match netaddr_IPNetwork local_ip with
  | .error (.addrFormatError m) => .error (wrap m)
  | .error e => .error e
  | .ok net =>
    if net.prefixlen = 32 then .error (wrap "Invalid netmask")
    else if net.ip.version = 6 ∧ net.prefixlen ≠ 64 then
      .error (wrap "Prefix must be 64 for IPv6")
    else .ok ()

/-- `_validate_value_formats`: the `local_ip` CIDR rules, then the
fully-qualified-hostname rule. -/
def _validate_value_formats (conf : Conf) : Except Exn Unit := do
  validateLocalIPCIDR conf.local_ip
  match conf.undercloud_hostname with
  | some hostname =>
    if !(hostname.data.contains '.') then
      .error (.failedValidation ("Hostname " ++ hostname ++ " is not fully qualified."))
    else .ok ()
  | none => .ok ()

/-- The containment test shared by the `validate_addr_in_cidr` paths once
an address value is at hand (netaddr `in`, raw integer comparison). -/
def validate_ip_in_cidr (cidr : IPNetwork) (a : IPAddr) (pretty_name addr : String) :
    Except Exn Unit :=
  if !(ipnetwork_contains cidr a) then
    .error (.failedValidation
      ("Config option " ++ pretty_name ++ " " ++ addr ++ " not in defined CIDR"))
  else .ok ()

/-- The inner `validate_addr_in_cidr` helper of `_validate_in_cidr`: a
non-parsing value is `FailedValidation` when `require_ip`, tolerated
otherwise. -/
def validate_addr_in_cidr (cidr : IPNetwork) (addr pretty_name : String) (require_ip : Bool) :
    Except Exn Unit :=
  match netaddr_IPAddress addr with
  | .ok a => validate_ip_in_cidr cidr a pretty_name addr
  | .error _ =>
    if require_ip then .error (.failedValidation ("Invalid IP address: " ++ addr))
    else .ok ()

/-- `_validate_in_cidr`.  The source checks
`str(netaddr.IPNetwork(CONF.local_ip).ip)`; since stringifying a parsed
address and re-parsing it is the identity, that call is modelled by the
containment test on the parsed `.ip` value directly. -/
def _validate_in_cidr (conf : Conf) (subnet_props : SubnetProps) (subnet_name : String) :
    Except Exn Unit := do
  match netaddr_IPNetwork subnet_props.cidr with
  | .error e => .error e
  | .ok cidr => do
    (if subnet_name = conf.local_subnet then
      match netaddr_IPNetwork conf.local_ip with
      | .error e => .error e
      | .ok local_net => validate_ip_in_cidr cidr local_net.ip "local_ip" conf.local_ip
    else .ok ())
    validate_addr_in_cidr cidr subnet_props.gateway "gateway" true
    (if (conf.undercloud_service_certificate || conf.generate_service_certificate) &&
        !conf.enable_ui then do
      validate_addr_in_cidr cidr conf.undercloud_public_host "undercloud_public_host" false
      validate_addr_in_cidr cidr conf.undercloud_admin_host "undercloud_admin_host" false
    else .ok ())
    validate_addr_in_cidr cidr subnet_props.dhcp_start "dhcp_start" true
    validate_addr_in_cidr cidr subnet_props.dhcp_end "dhcp_end" true

/-- `_validate_dhcp_range`: parse both bounds, fail unless
`start < end` in the netaddr order. -/
def _validate_dhcp_range (subnet_props : SubnetProps) : Except Exn Unit :=
  match netaddr_IPAddress subnet_props.dhcp_start with
  | .error e => .error e
  | .ok start =>
    match netaddr_IPAddress subnet_props.dhcp_end with
    | .error e => .error e
    | .ok stop =>
      if ipaddr_ge start stop then
        .error (.failedValidation
          ("Invalid dhcp range specified, dhcp_start " ++ subnet_props.dhcp_start ++
            " does not come before dhcp_end " ++ subnet_props.dhcp_end))
      else .ok ()

/-- `_validate_inspection_range`: `inspection_iprange.split(',')[0]` is
parsed first; indexing `[1]` raises `IndexError` when there is no comma;
then the second bound is parsed and the order is checked. -/
def _validate_inspection_range (subnet_props : SubnetProps) : Except Exn Unit :=
  let parts := strSplitOnChar ',' subnet_props.inspection_iprange
  match netaddr_IPAddress (parts.headD "") with
  | .error e => .error e
  | .ok start =>
    match parts.get? 1 with
    | none => .error .indexError
    | some second =>
      match netaddr_IPAddress second with
      | .error e => .error e
      | .ok stop =>
        if ipaddr_ge start stop then
          .error (.failedValidation "Invalid inspection range specified")
        else .ok ()

/-- `_validate_no_overlap`: build the dhcp `IPRange`, then (after the
`[1]` indexing of the split) the inspection `IPRange`, and fail when the
two `IPSet`s intersect.  Two inclusive ranges of the same version
intersect exactly when the larger start is at most the smaller end;
ranges of different versions are disjoint as sets. -/
def _validate_no_overlap (subnet_props : SubnetProps) : Except Exn Unit :=
  match netaddr_IPRange subnet_props.dhcp_start subnet_props.dhcp_end with
  | .error e => .error e
  | .ok (dhcp_lo, dhcp_hi) =>
    let parts := strSplitOnChar ',' subnet_props.inspection_iprange
    match parts.get? 1 with
    | none => .error .indexError
    | some second =>
      match netaddr_IPRange (parts.headD "") second with
      | .error e => .error e
      | .ok (insp_lo, insp_hi) =>
        if dhcp_lo.version = insp_lo.version ∧
            max dhcp_lo.val insp_lo.val ≤ min dhcp_hi.val insp_hi.val then
          .error (.failedValidation
            ("Inspection DHCP range " ++ (parts.headD "") ++ "-" ++ second ++
              " overlaps provisioning DHCP range " ++ subnet_props.dhcp_start ++ "-" ++
              subnet_props.dhcp_end))
        else .ok ()

/-- `_validate_interface_exists`. -/
def _validate_interface_exists (conf : Conf) (host : HostState) : Except Exn Unit :=
  if !conf.net_config_override && !(host.interfaces.contains conf.local_interface) then
    .error (.failedValidation
      ("Invalid local_interface specified. " ++ conf.local_interface ++ " is not available."))
  else .ok ()

/-- `_validate_no_ip_change`: nothing to do when the os-net-config file
is absent; the `IndexError` of `[...][0]` on a missing `br-ctlplane`
entry is caught and means success; `addresses[0]` is outside that `try`,
so an empty address list raises an uncaught `IndexError`; otherwise the
recorded `ip_netmask` string is compared with `CONF.local_ip` by string
equality. -/
def _validate_no_ip_change (conf : Conf) (host : HostState) : Except Exn Unit :=
  match host.os_net_config with
  | none => .ok ()
  | some network_config =>
    match (network_config.network_config.filter (fun i => i.name = "br-ctlplane")).head? with
    | none => .ok ()
    | some ctlplane =>
      match ctlplane.addresses.head? with
      | none => .error .indexError
      | some entry =>
        if entry.ip_netmask ≠ conf.local_ip then
          .error (.failedValidation
            ("Changing the local_ip is not allowed. Existing IP: " ++ entry.ip_netmask ++
              ", Configured IP: " ++ conf.local_ip))
        else .ok ()

/-- `_validate_passwords_file`. -/
def _validate_passwords_file (host : HostState) : Except Exn Unit :=
  if host.stackrc_exists && !host.passwords_file_exists then
    .error (.failedValidation
      ("The " ++ PASSWORD_PATH ++
        " file is missing. This will cause all service passwords to change and break the existing undercloud."))
  else .ok ()

/-- `_validate_env_files_paths`.  After computing `tht_path` and
`roles_file` the source executes `self.log.debug(...)`, but `self` is not
defined in this module-level function, so the call raises `NameError`
before the dry-run invocation and the basename-collision loop are ever
reached (the collision branch additionally contains a malformed
`msg = _(...) %` line continuation). -/
def _validate_env_files_paths (_conf : Conf) : Except Exn Unit :=
  .error (.nameError "name self is not defined")

/-! ## The orchestrator (`check`) -/

/-- The per-subnet body of the `for subnet in CONF.subnets` loop. -/
def validateSubnet (conf : Conf) (subnet_name : String) (s : SubnetProps) : Except Exn Unit := do
  _validate_in_cidr conf s subnet_name
  _validate_dhcp_range s
  _validate_inspection_range s
  _validate_no_overlap s

/-- The `for subnet in CONF.subnets` loop. -/
def validateSubnets (conf : Conf) : List (String × SubnetProps) → Except Exn Unit
  | [] => .ok ()
  | p :: rest => do
    validateSubnet conf p.1 p.2
    validateSubnets conf rest

/-- The `try` block of `check()`: the checks in source order, each
exception short-circuiting the rest. -/
def check_body (conf : Conf) (host : HostState) : Except Exn Unit := do
  _check_hostname host
  _check_memory host
  _check_sysctl host
  _validate_passwords_file host
  (if conf.custom_env_files ≠ [] then _validate_env_files_paths conf else .ok ())
  _validate_value_formats conf
  validateSubnets conf conf.subnets
  _validate_ips conf
  _validate_interface_exists conf host
  _validate_no_ip_change conf host

/-- The outcome of `check()`: normal return, `sys.exit(1)` from one of
the three `except` clauses, or an exception that escapes `check()`
entirely. -/
inductive CheckOutcome where
  | passed
  | failed (e : Exn)
  | uncaught (e : Exn)
deriving DecidableEq, Repr

/-- The `except` clauses of `check()`: `KeyError`, `FailedValidation` and
`RuntimeError` are logged and become `sys.exit(1)`; anything else
escapes. -/
def classify (e : Exn) : CheckOutcome :=
  match e with
  | .keyError m => .failed (.keyError m)
  | .failedValidation m => .failed (.failedValidation m)
  | .runtimeError m => .failed (.runtimeError m)
  | e => .uncaught e

/-- `check()`. -/
def check (conf : Conf) (host : HostState) : CheckOutcome :=
  match check_body conf host with
  | .ok _ => .passed
  | .error e => classify e

/-- The exception a `check()` outcome surfaces to its caller, if any
(logged before `sys.exit(1)`, or propagating uncaught). -/
def surfacedExn : CheckOutcome → Option Exn
  | .passed => none
  | .failed e => some e
  | .uncaught e => some e

/-! ## Named check sequence

An explicit ordered list of the checks `check()` runs, used to state the
fail-fast ordering property. -/

/-- Names for the checks of the fixed sequence. -/
inductive CheckId where
  | hostname
  | memory
  | sysctl
  | passwords
  | envPaths
  | valueFormats
  | inCidr (subnet : String)
  | dhcpRange (subnet : String)
  | inspectionRange (subnet : String)
  | noOverlap (subnet : String)
  | nameservers
  | ifaceExists
  | noIpChange
deriving DecidableEq, Repr

/-- The four per-subnet checks, in source order. -/
def subnetChecks (conf : Conf) (p : String × SubnetProps) : List (CheckId × Except Exn Unit) :=
  [(.inCidr p.1, _validate_in_cidr conf p.2 p.1),
   (.dhcpRange p.1, _validate_dhcp_range p.2),
   (.inspectionRange p.1, _validate_inspection_range p.2),
   (.noOverlap p.1, _validate_no_overlap p.2)]

/-- The full ordered check sequence of `check()`, with each check paired
with its outcome; the environment-file check appears only when custom
environment files are configured. -/
def orderedChecks (conf : Conf) (host : HostState) : List (CheckId × Except Exn Unit) :=
  [(.hostname, _check_hostname host),
   (.memory, _check_memory host),
   (.sysctl, _check_sysctl host),
   (.passwords, _validate_passwords_file host)] ++
  (if conf.custom_env_files ≠ [] then [(.envPaths, _validate_env_files_paths conf)] else []) ++
  [(.valueFormats, _validate_value_formats conf)] ++
  (conf.subnets.map (subnetChecks conf)).flatten ++
  [(.nameservers, _validate_ips conf),
   (.ifaceExists, _validate_interface_exists conf host),
   (.noIpChange, _validate_no_ip_change conf host)]

/-- Run a list of named checks in order, stopping at the first failure;
return the names of the checks executed and the final outcome. -/
def runChecks : List (CheckId × Except Exn Unit) → List CheckId × Except Exn Unit
  | [] => ([], .ok ())
  | p :: rest =>
    match p.2 with
    | .error e => ([p.1], .error e)
    | .ok _ => ((p.1 :: (runChecks rest).1), (runChecks rest).2)

/-- The outcome of a named check list, ignoring the trace. -/
def seqChecks : List (CheckId × Except Exn Unit) → Except Exn Unit
  | [] => .ok ()
  | p :: rest =>
    match p.2 with
    | .error e => .error e
    | .ok _ => seqChecks rest

/-! ## Concrete configurations and host states used to instantiate the
theorems -/

/-- A host state on which every host-side check passes. -/
def goodHost : HostState where
  static_hostname := "uc.example.com"
  transient_hostname := "uc.example.com"
  etc_hosts_lines := ["127.0.0.1 uc.example.com uc"]
  mem_total := 8 * 1024 * 1024 * 1024
  swap_total := 0
  if_inet6_exists := false
  proc_sys_files := ["/proc/sys/net/ipv4/ip_forward", "/proc/sys/net/ipv4/ip_nonlocal_bind"]
  stackrc_exists := false
  passwords_file_exists := false
  interfaces := ["eth0", "eth1"]
  os_net_config := none

/-- A subnet on which every subnet check passes. -/
def goodSubnet : SubnetProps where
  cidr := "192.168.1.0/24"
  gateway := "192.168.1.1"
  dhcp_start := "192.168.1.10"
  dhcp_end := "192.168.1.50"
  inspection_iprange := "192.168.1.100,192.168.1.150"

/-- A configuration on which every configuration check passes. -/
def goodConf : Conf where
  undercloud_hostname := none
  local_ip := "192.168.1.1/24"
  local_subnet := "ctlplane"
  local_interface := "eth1"
  undercloud_nameservers := ["8.8.8.8"]
  undercloud_service_certificate := false
  generate_service_certificate := false
  enable_ui := false
  net_config_override := false
  undercloud_public_host := "192.168.1.2"
  undercloud_admin_host := "192.168.1.3"
  custom_env_files := []
  subnets := [("ctlplane", goodSubnet)]

/-- `goodHost` with 7679 MB of combined memory. -/
def lowMemHost : HostState :=
  { goodHost with mem_total := 7679 * 1024 * 1024 }

/-- `goodHost` with exactly `mb` MB of combined memory. -/
def mbHost (mb : Nat) : HostState :=
  { goodHost with mem_total := mb * 1024 * 1024 }

/-- `goodHost` missing `/proc/sys/net/ipv4/ip_nonlocal_bind`. -/
def missingSysctlHost : HostState :=
  { goodHost with proc_sys_files := ["/proc/sys/net/ipv4/ip_forward"] }

/-- `goodSubnet` with an inspection range lying entirely outside the
subnet CIDR (but ordered and not overlapping the DHCP range). -/
def outsideInspSubnet : SubnetProps :=
  { goodSubnet with inspection_iprange := "10.0.0.100,10.0.0.150" }

/-- `goodConf` over `outsideInspSubnet`. -/
def outsideInspConf : Conf :=
  { goodConf with subnets := [("ctlplane", outsideInspSubnet)] }

/-- A subnet whose dhcp bounds are an IPv4 and an IPv6 address. -/
def mixedFamilySubnet : SubnetProps :=
  { goodSubnet with dhcp_start := "192.168.1.10", dhcp_end := "::1" }

/-- A subnet whose dhcp range and inspection range each pair an IPv4
start with an IPv6 end. -/
def mixedBothSubnet : SubnetProps :=
  { goodSubnet with
      dhcp_start := "192.168.1.10"
      dhcp_end := "::1"
      inspection_iprange := "192.168.1.100,::2" }

/-- `goodSubnet` with a dhcp start that does not parse as an IP. -/
def badDhcpStartSubnet : SubnetProps :=
  { goodSubnet with dhcp_start := "foo" }

/-- `goodConf` over `badDhcpStartSubnet`. -/
def badDhcpStartConf : Conf :=
  { goodConf with subnets := [("ctlplane", badDhcpStartSubnet)] }

/-- `goodSubnet` with an inspection bound that does not parse as an IP. -/
def badInspSubnet : SubnetProps :=
  { goodSubnet with inspection_iprange := "bar,192.168.1.150" }

/-- `goodConf` over `badInspSubnet`. -/
def badInspConf : Conf :=
  { goodConf with subnets := [("ctlplane", badInspSubnet)] }

/-- `goodSubnet` with inspection range overlapping the DHCP range
(end-to-end scenario 2 of the specification). -/
def overlapSubnet : SubnetProps :=
  { goodSubnet with inspection_iprange := "192.168.1.40,192.168.1.60" }

/-- `goodSubnet` with the DHCP and inspection ranges exchanged. -/
def goodSubnetSwapped : SubnetProps :=
  { goodSubnet with
      dhcp_start := "192.168.1.100"
      dhcp_end := "192.168.1.150"
      inspection_iprange := "192.168.1.10,192.168.1.50" }

/-- `overlapSubnet` with the DHCP and inspection ranges exchanged. -/
def overlapSubnetSwapped : SubnetProps :=
  { goodSubnet with
      dhcp_start := "192.168.1.40"
      dhcp_end := "192.168.1.60"
      inspection_iprange := "192.168.1.10,192.168.1.50" }

/-- A host whose prior os-net-config records a br-ctlplane address that
is numerically `goodConf.local_ip` but written with a leading-zero
octet. -/
def ipChangeHost : HostState :=
  { goodHost with
      os_net_config := some ⟨[⟨"br-ctlplane", [⟨"192.168.001.1/24"⟩]⟩]⟩ }

/-- A host whose prior os-net-config exists but has no br-ctlplane
entry. -/
def noCtlplaneHost : HostState :=
  { goodHost with os_net_config := some ⟨[⟨"em1", [⟨"10.0.0.5/24"⟩]⟩]⟩ }

/-- `goodConf` with a custom environment file configured (its basename
collides with nothing the renderer would produce). -/
def envFilesConf : Conf :=
  { goodConf with custom_env_files := ["/home/stack/my-env.yaml"] }

theorem runChecks_snd (l : List (CheckId × Except Exn Unit)) :
    (runChecks l).2 = seqChecks l := by
  induction l with
  | nil => rfl
  | cons p rest ih =>
    cases h : p.2 with
    | error e => simp [runChecks, seqChecks, h]
    | ok u => simp [runChecks, seqChecks, h, ih]

/-- Sequencing two Except-unit computations, discarding the first value. -/
theorem except_bind_unit (a : Except Exn Unit) (k : Unit → Except Exn Unit) :
    (a >>= k) = match a with | .error e => .error e | .ok u => k u := by
  cases a <;> rfl

theorem seqChecks_append (l₁ l₂ : List (CheckId × Except Exn Unit)) :
    seqChecks (l₁ ++ l₂) =
      (match seqChecks l₁ with | .error e => .error e | .ok _ => seqChecks l₂) := by
  induction l₁ with
  | nil => rfl
  | cons p rest ih =>
    cases h : p.2 with
    | error e => simp [seqChecks, h]
    | ok u => simp [seqChecks, h, ih]

/-- When every check before some failing check succeeds, the run executes
exactly the earlier checks plus the failing one — nothing after it — and
returns that failure unchanged. -/
theorem runChecks_first_failure (pre : List (CheckId × Except Exn Unit))
    (i : CheckId) (e : Exn) (post : List (CheckId × Except Exn Unit))
    (hpre : ∀ p ∈ pre, p.2 = Except.ok ()) :
    runChecks (pre ++ (i, Except.error e) :: post) =
      (pre.map Prod.fst ++ [i], Except.error e) := by
  induction pre with
  | nil => simp [runChecks]
  | cons p rest ih =>
    have hp : p.2 = Except.ok () := hpre p (by simp)
    have hrest : ∀ q ∈ rest, q.2 = Except.ok () := fun q hq => hpre q (by simp [hq])
    simp [runChecks, hp, ih hrest]

theorem validateSubnet_eq_seq (conf : Conf) (n : String) (s : SubnetProps) :
    validateSubnet conf n s = seqChecks (subnetChecks conf (n, s)) := by
  unfold validateSubnet subnetChecks
  simp only [except_bind_unit]
  cases _validate_in_cidr conf s n <;>
    cases _validate_dhcp_range s <;>
      cases _validate_inspection_range s <;>
        cases _validate_no_overlap s <;>
          rfl

theorem validateSubnets_eq_seq (conf : Conf) (l : List (String × SubnetProps)) :
    validateSubnets conf l = seqChecks ((l.map (subnetChecks conf)).flatten) := by
  induction l with
  | nil => rfl
  | cons p rest ih =>
    show (validateSubnet conf p.1 p.2 >>= fun _ => validateSubnets conf rest) = _
    rw [List.map_cons, List.flatten_cons, seqChecks_append, except_bind_unit,
      ← validateSubnet_eq_seq conf p.1 p.2, ih]

theorem check_body_eq_seq (conf : Conf) (host : HostState) :
    check_body conf host = seqChecks (orderedChecks conf host) := by
  unfold check_body orderedChecks
  cases h1 : _check_hostname host <;>
  cases h2 : _check_memory host <;>
  cases h3 : _check_sysctl host <;>
  cases h4 : _validate_passwords_file host <;>
  cases h6 : _validate_value_formats conf <;>
  cases h7 : validateSubnets conf conf.subnets <;>
  cases h8 : _validate_ips conf <;>
  cases h9 : _validate_interface_exists conf host <;>
  cases h10 : _validate_no_ip_change conf host <;>
  by_cases henv : conf.custom_env_files = [] <;>
  cases h5 : _validate_env_files_paths conf <;>
  simp [seqChecks, seqChecks_append, Bind.bind, Except.bind, henv,
    ← validateSubnets_eq_seq, h7]

theorem classify_surfaces (e : Exn) : surfacedExn (classify e) = some e := by
  cases e <;> rfl

/-- C3: `check` runs exactly the fixed ordered sequence of checks —
hostname, memory, sysctl, passwords file, environment-file paths (only
when custom environment files are configured), value formats, then per
subnet containment / dhcp order / inspection order / no-overlap, then
nameservers, interface existence and no-IP-change (the list
`orderedChecks`): its body equals the first-failure run of that list,
and whenever the sequence decomposes as successful checks followed by a
failing one, exactly the checks up to and including the failing one are
executed — none after it — and the first failure is surfaced unchanged
by `check`. -/
theorem check_fail_fast_order (conf : Conf) (host : HostState) :
    check_body conf host = (runChecks (orderedChecks conf host)).2 ∧
    (∀ pre i e post,
      orderedChecks conf host = pre ++ (i, Except.error e) :: post →
      (∀ p ∈ pre, p.2 = Except.ok ()) →
      runChecks (orderedChecks conf host) = (pre.map Prod.fst ++ [i], Except.error e) ∧
      surfacedExn (check conf host) = some e) := by
  have hbody := check_body_eq_seq conf host
  refine ⟨by rw [runChecks_snd]; exact hbody, ?_⟩
  intro pre i e post hdec hpre
  have hrun : runChecks (orderedChecks conf host) =
      (pre.map Prod.fst ++ [i], Except.error e) := by
    rw [hdec]
    exact runChecks_first_failure pre i e post hpre
  refine ⟨hrun, ?_⟩
  have hb : check_body conf host = Except.error e := by
    rw [hbody, ← runChecks_snd, hrun]
  simp only [check, hb]
  exact classify_surfaces e

/-- Witness for C3: on a host with 7679 MB of memory the hostname check
is executed and passes, the memory check is executed and fails, nothing
after the memory check runs, and the memory failure is surfaced
unchanged. -/
theorem check_fail_fast_order_witness :
    runChecks (orderedChecks goodConf lowMemHost) =
      ([CheckId.hostname, CheckId.memory],
        Except.error (Exn.runtimeError "Insufficient memory available")) ∧
    surfacedExn (check goodConf lowMemHost) =
      some (Exn.runtimeError "Insufficient memory available") := by
  have h := (check_fail_fast_order goodConf lowMemHost).2
    ((orderedChecks goodConf lowMemHost).take 1) CheckId.memory
    (Exn.runtimeError "Insufficient memory available")
    ((orderedChecks goodConf lowMemHost).drop 2) (by decide) (by decide)
  exact ⟨by rw [h.1]; decide, h.2⟩

/-- C5: the memory check computes physical plus swap memory in MB by
integer division and fails with the host-state error exactly when that
total is strictly below 7680 MB; a total of exactly 7680 MB passes and
7679 MB fails. -/
theorem memory_check_threshold (host : HostState) :
    (_check_memory host = Except.ok () ↔
      REQUIRED_MB ≤ (host.mem_total + host.swap_total) / 1024 / 1024) ∧
    ((host.mem_total + host.swap_total) / 1024 / 1024 < REQUIRED_MB ↔
      _check_memory host = Except.error (Exn.runtimeError "Insufficient memory available")) ∧
    _check_memory (mbHost 7680) = Except.ok () ∧
    _check_memory (mbHost 7679) =
      Except.error (Exn.runtimeError "Insufficient memory available") := by
  refine ⟨?_, ?_, by decide, by decide⟩ <;>
  · unfold _check_memory
    by_cases h : (host.mem_total + host.swap_total) / 1024 / 1024 < REQUIRED_MB <;>
      simp [h, REQUIRED_MB]

/-- C6: the sysctl check examines `net.ipv4.ip_forward`,
`net.ipv4.ip_nonlocal_bind` and, only when the IPv6 proc interface is
present, `net.ipv6.ip_nonlocal_bind`; it succeeds exactly when every
corresponding `/proc/sys` path exists, and on failure its single logged
message lists every missing option (each missing option is in the
reported `not_available` list that the message joins). -/
theorem sysctl_check_missing (host : HostState) :
    (_check_sysctl host = Except.ok () ↔
      ∀ opt ∈ (["net.ipv4.ip_forward", "net.ipv4.ip_nonlocal_bind"] ++
          (if _check_ipv6_enabled host then ["net.ipv6.ip_nonlocal_bind"] else [])),
        sysctl_path opt ∈ host.proc_sys_files) ∧
    (sysctl_missing host ≠ [] →
      (_check_sysctl_log host).1 = [sysctl_failure_message (sysctl_missing host)] ∧
      ∀ opt ∈ (["net.ipv4.ip_forward", "net.ipv4.ip_nonlocal_bind"] ++
          (if _check_ipv6_enabled host then ["net.ipv6.ip_nonlocal_bind"] else [])),
        sysctl_path opt ∉ host.proc_sys_files → opt ∈ sysctl_missing host) := by
  constructor
  · unfold _check_sysctl _check_sysctl_log
    by_cases h : sysctl_missing host = []
    · simp only [h, ne_eq, not_true_eq_false, if_false, ite_false]
      simp only [sysctl_missing, sysctl_options, List.filter_eq_nil_iff] at h
      simpa using h
    · simp only [h, ne_eq, not_false_eq_true, if_true, ite_true]
      constructor
      · intro hc
        exact absurd hc (by simp)
      · intro hall
        exact absurd (by
          simp only [sysctl_missing, sysctl_options, List.filter_eq_nil_iff]
          intro a ha
          simpa using hall a (by simpa [sysctl_options] using ha)) h
  · intro h
    refine ⟨by simp [_check_sysctl_log, h], ?_⟩
    intro opt hopt hmiss
    exact List.mem_filter.mpr ⟨by simpa [sysctl_options] using hopt, by simpa using hmiss⟩

/-- Witness for C6 (specification scenario 5): on a host missing only
`/proc/sys/net/ipv4/ip_nonlocal_bind`, the check fails, the logged
message is the join over exactly that one option, and that option is in
the reported missing list. -/
theorem sysctl_check_missing_witness :
    _check_sysctl missingSysctlHost ≠ Except.ok () ∧
    (_check_sysctl_log missingSysctlHost).1 =
      [sysctl_failure_message ["net.ipv4.ip_nonlocal_bind"]] ∧
    "net.ipv4.ip_nonlocal_bind" ∈ sysctl_missing missingSysctlHost := by
  refine ⟨?_, ?_, ?_⟩
  · intro hok
    have := (sysctl_check_missing missingSysctlHost).1.mp hok
      "net.ipv4.ip_nonlocal_bind" (by decide)
    exact absurd this (by decide)
  · have := ((sysctl_check_missing missingSysctlHost).2 (by decide)).1
    exact this.trans (by decide)
  · exact ((sysctl_check_missing missingSysctlHost).2 (by decide)).2
      "net.ipv4.ip_nonlocal_bind" (by decide) (by decide)

/-- C8 (code bug): the environment-file-paths check never reaches the
dry-run / basename-collision logic: `self` is undefined in the
module-level function, so the check raises `NameError` unconditionally,
an exception class that escapes the orchestrator's `except` clauses; in
particular a custom environment file with a non-colliding basename is
rejected rather than passed. -/
theorem env_files_paths_name_error (conf : Conf) :
    _validate_env_files_paths conf =
      Except.error (Exn.nameError "name self is not defined") ∧
    classify (Exn.nameError "name self is not defined") =
      CheckOutcome.uncaught (Exn.nameError "name self is not defined") ∧
    check envFilesConf goodHost =
      CheckOutcome.uncaught (Exn.nameError "name self is not defined") := by
  exact ⟨rfl, rfl, by decide⟩

theorem ipaddress_version (s : String) (a : IPAddr)
    (h : netaddr_IPAddress s = Except.ok a) : a.version = 4 ∨ a.version = 6 := by
  unfold netaddr_IPAddress at h
  cases h4 : parseIPv4 s.data <;> rw [h4] at h
  · cases h6 : parseIPv6 s.data <;> rw [h6] at h
    · exact absurd h (by simp)
    · simp only [Except.ok.injEq] at h
      subst h
      exact Or.inr rfl
  · simp only [Except.ok.injEq] at h
    subst h
    exact Or.inl rfl

theorem ipnetwork_version (s : String) (n : IPNetwork)
    (h : netaddr_IPNetwork s = Except.ok n) : n.ip.version = 4 ∨ n.ip.version = 6 := by
  unfold netaddr_IPNetwork at h
  split at h
  · split at h
    · simp only [Except.ok.injEq] at h
      subst h
      exact ipaddress_version _ _ (by assumption)
    · exact absurd h (by simp)
  · split at h
    · split at h
      · simp only [Except.ok.injEq] at h
        subst h
        exact ipaddress_version _ _ (by assumption)
      · exact absurd h (by simp)
    · exact absurd h (by simp)
  · exact absurd h (by simp)

/-- C2: for every string parsing as a valid CIDR, the local-IP format
check succeeds iff the prefix length is not 32 and (the family is IPv4
or the prefix length is exactly 64), and every rejection is a
`FailedValidation` (the code's carrier for the spec's FormatInvalid). -/
theorem local_ip_cidr_rule (s : String) (net : IPNetwork)
    (h : netaddr_IPNetwork s = Except.ok net) :
    (validateLocalIPCIDR s = Except.ok () ↔
      net.prefixlen ≠ 32 ∧ (net.ip.version = 4 ∨ net.prefixlen = 64)) ∧
    (∀ e, validateLocalIPCIDR s = Except.error e → ∃ m, e = Exn.failedValidation m) := by
  have hver := ipnetwork_version s net h
  unfold validateLocalIPCIDR
  simp only [h]
  by_cases h32 : net.prefixlen = 32
  · simp [h32]
  · by_cases h6 : net.ip.version = 6 ∧ net.prefixlen ≠ 64
    · rw [if_neg h32, if_pos h6]
      constructor
      · constructor
        · intro hc
          exact absurd hc (by simp)
        · rintro ⟨-, h46⟩
          rcases h46 with h4 | h64
          · rw [h4] at h6
            exact absurd h6.1 (by decide)
          · exact absurd h64 h6.2
      · intro e he
        simp only [Except.error.injEq] at he
        exact ⟨_, he.symm⟩
    · rw [if_neg h32, if_neg h6]
      constructor
      · refine iff_of_true rfl ⟨h32, ?_⟩
        rcases hver with h4 | hv6
        · exact Or.inl h4
        · rcases Decidable.em (net.prefixlen = 64) with h64 | h64
          · exact Or.inr h64
          · exact absurd ⟨hv6, h64⟩ h6
      · intro e he
        exact absurd he (by simp)

/-- Witness for C2: `192.168.1.1/24` passes; `2001:db8::1/48` (an IPv6
prefix other than 64) is rejected, and rejected as `FailedValidation`. -/
theorem local_ip_cidr_rule_witness :
    validateLocalIPCIDR "192.168.1.1/24" = Except.ok () ∧
    validateLocalIPCIDR "2001:db8::1/48" ≠ Except.ok () ∧
    (∃ m, validateLocalIPCIDR "2001:db8::1/48" = Except.error (Exn.failedValidation m)) := by
  have h1 := local_ip_cidr_rule "192.168.1.1/24" ⟨⟨4, 3232235777⟩, 24⟩ (by decide)
  have h2 := local_ip_cidr_rule "2001:db8::1/48"
    ⟨⟨6, 42540766411282592856903984951653826561⟩, 48⟩ (by decide)
  refine ⟨h1.1.mpr (by decide), ?_, ?_⟩
  · intro hok
    exact absurd (h2.1.mp hok) (by decide)
  · cases he : validateLocalIPCIDR "2001:db8::1/48" with
    | ok u =>
      cases u
      exact absurd (h2.1.mp he) (by decide)
    | error e =>
      obtain ⟨m, hm⟩ := h2.2 e he
      exact ⟨m, by rw [hm]⟩

/-- Splitting a successful unit-valued `Except` sequencing. -/
theorem bind_ok_unit {a : Except Exn Unit} {k : Unit → Except Exn Unit}
    (h : (a >>= k) = Except.ok ()) : a = Except.ok () ∧ k () = Except.ok () := by
  cases a with
  | error e => exact absurd h (by simp [except_bind_unit])
  | ok u =>
    cases u
    exact ⟨rfl, by simpa [except_bind_unit] using h⟩

/-- C1 counterexample: a subnet whose inspection range lies entirely
outside the CIDR (while ordered and disjoint from the DHCP range) passes
the whole per-subnet validation — and the whole orchestrated run — so an
inspection-range bound outside the CIDR does not cause the subnet
validation to fail. -/
theorem inspection_outside_cidr_passes :
    netaddr_IPNetwork outsideInspSubnet.cidr = Except.ok ⟨⟨4, 3232235776⟩, 24⟩ ∧
    netaddr_IPAddress
        ((strSplitOnChar ',' outsideInspSubnet.inspection_iprange).headD "") =
      Except.ok ⟨4, 167772260⟩ ∧
    ipnetwork_contains ⟨⟨4, 3232235776⟩, 24⟩ ⟨4, 167772260⟩ = false ∧
    validateSubnet outsideInspConf "ctlplane" outsideInspSubnet = Except.ok () ∧
    check outsideInspConf goodHost = CheckOutcome.passed := by
  exact ⟨by decide, by decide, by decide, by decide, by decide⟩

/-- C1 as amended: the containment check covers the DHCP bounds (not the
inspection bounds): whenever the per-subnet validation succeeds, the
DHCP range start and end both parse and lie within the subnet's CIDR. -/
theorem subnet_dhcp_bounds_in_cidr (conf : Conf) (subnet_name : String) (s : SubnetProps)
    (net : IPNetwork) (hc : netaddr_IPNetwork s.cidr = Except.ok net)
    (hok : validateSubnet conf subnet_name s = Except.ok ()) :
    ∃ a b, netaddr_IPAddress s.dhcp_start = Except.ok a ∧
      ipnetwork_contains net a = true ∧
      netaddr_IPAddress s.dhcp_end = Except.ok b ∧
      ipnetwork_contains net b = true := by
  unfold validateSubnet at hok
  have h1 : _validate_in_cidr conf s subnet_name = Except.ok () := (bind_ok_unit hok).1
  unfold _validate_in_cidr at h1
  rw [hc] at h1
  obtain ⟨-, h2⟩ := bind_ok_unit h1
  obtain ⟨-, h3⟩ := bind_ok_unit h2
  obtain ⟨-, h4⟩ := bind_ok_unit h3
  obtain ⟨hds, hde⟩ := bind_ok_unit h4
  unfold validate_addr_in_cidr at hds hde
  cases hpa : netaddr_IPAddress s.dhcp_start <;> rw [hpa] at hds
  · exact absurd hds (by simp)
  case ok a =>
  cases hpb : netaddr_IPAddress s.dhcp_end <;> rw [hpb] at hde
  · exact absurd hde (by simp)
  case ok b =>
  unfold validate_ip_in_cidr at hds hde
  refine ⟨a, b, rfl, ?_, rfl, ?_⟩
  · cases hca : ipnetwork_contains net a with
    | true => rfl
    | false => simp [hca] at hds
  · cases hcb : ipnetwork_contains net b with
    | true => rfl
    | false => simp [hcb] at hde

/-- Witness for the amended C1: on the passing subnet of the concrete
configuration, the DHCP bounds indeed parse and lie in the CIDR. -/
theorem subnet_dhcp_bounds_in_cidr_witness :
    ∃ a b, netaddr_IPAddress goodSubnet.dhcp_start = Except.ok a ∧
      ipnetwork_contains ⟨⟨4, 3232235776⟩, 24⟩ a = true ∧
      netaddr_IPAddress goodSubnet.dhcp_end = Except.ok b ∧
      ipnetwork_contains ⟨⟨4, 3232235776⟩, 24⟩ b = true :=
  subnet_dhcp_bounds_in_cidr goodConf "ctlplane" goodSubnet
    ⟨⟨4, 3232235776⟩, 24⟩ (by decide) (by decide)

/-- A successfully constructed `IPRange`. -/
theorem IPRange_ok (start stop : String) (a b : IPAddr)
    (ha : netaddr_IPAddress start = Except.ok a) (hb : netaddr_IPAddress stop = Except.ok b)
    (hv : a.version = b.version) (hord : a.val ≤ b.val) :
    netaddr_IPRange start stop = Except.ok (a, b) := by
  unfold netaddr_IPRange
  simp only [ha, hb]
  rw [if_neg (by simp [hv]), if_neg (Nat.not_lt.mpr hord)]

/-- `_validate_no_overlap` on parsed, ordered ranges reduces to the
interval-intersection test. -/
theorem no_overlap_eval (s : SubnetProps) (a b c d : IPAddr) (i1 : String)
    (hsa : netaddr_IPAddress s.dhcp_start = Except.ok a)
    (hsb : netaddr_IPAddress s.dhcp_end = Except.ok b)
    (hs1 : (strSplitOnChar ',' s.inspection_iprange).get? 1 = some i1)
    (hsc : netaddr_IPAddress ((strSplitOnChar ',' s.inspection_iprange).headD "") =
      Except.ok c)
    (hsd : netaddr_IPAddress i1 = Except.ok d)
    (hvab : a.version = b.version) (hvcd : c.version = d.version)
    (hab : a.val ≤ b.val) (hcd : c.val ≤ d.val) :
    _validate_no_overlap s =
      if a.version = c.version ∧ max a.val c.val ≤ min b.val d.val then
        Except.error (Exn.failedValidation
          ("Inspection DHCP range " ++ ((strSplitOnChar ',' s.inspection_iprange).headD "") ++
            "-" ++ i1 ++ " overlaps provisioning DHCP range " ++ s.dhcp_start ++ "-" ++
            s.dhcp_end))
      else Except.ok () := by
  unfold _validate_no_overlap
  simp only [IPRange_ok s.dhcp_start s.dhcp_end a b hsa hsb hvab hab, hs1,
    IPRange_ok _ i1 c d hsc hsd hvcd hcd]

/-- C4: on two parsed inclusive same-family ranges, the overlap check
fails exactly when the ranges share at least one address, and exchanging
the DHCP range with the inspection range yields the same
success/failure outcome. -/
theorem no_overlap_iff_disjoint_symm (s t : SubnetProps) (a b c d : IPAddr) (i1 j1 : String)
    (hsa : netaddr_IPAddress s.dhcp_start = Except.ok a)
    (hsb : netaddr_IPAddress s.dhcp_end = Except.ok b)
    (hs1 : (strSplitOnChar ',' s.inspection_iprange).get? 1 = some i1)
    (hsc : netaddr_IPAddress ((strSplitOnChar ',' s.inspection_iprange).headD "") =
      Except.ok c)
    (hsd : netaddr_IPAddress i1 = Except.ok d)
    (hta : netaddr_IPAddress t.dhcp_start = Except.ok c)
    (htb : netaddr_IPAddress t.dhcp_end = Except.ok d)
    (ht1 : (strSplitOnChar ',' t.inspection_iprange).get? 1 = some j1)
    (htc : netaddr_IPAddress ((strSplitOnChar ',' t.inspection_iprange).headD "") =
      Except.ok a)
    (htd : netaddr_IPAddress j1 = Except.ok b)
    (hvab : a.version = b.version) (hvcd : c.version = d.version)
    (hvac : a.version = c.version)
    (hab : a.val ≤ b.val) (hcd : c.val ≤ d.val) :
    (_validate_no_overlap s = Except.ok () ↔
      ¬ ∃ x, a.val ≤ x ∧ x ≤ b.val ∧ c.val ≤ x ∧ x ≤ d.val) ∧
    (_validate_no_overlap s = Except.ok () ↔ _validate_no_overlap t = Except.ok ()) := by
  have hS := no_overlap_eval s a b c d i1 hsa hsb hs1 hsc hsd hvab hvcd hab hcd
  have hT := no_overlap_eval t c d a b j1 hta htb ht1 htc htd hvcd hvab hcd hab
  constructor
  · rw [hS]
    by_cases hx : max a.val c.val ≤ min b.val d.val
    · rw [if_pos ⟨hvac, hx⟩]
      refine iff_of_false (by simp) ?_
      intro hno
      exact hno ⟨max a.val c.val, le_max_left _ _, le_trans hx (min_le_left _ _),
        le_max_right _ _, le_trans hx (min_le_right _ _)⟩
    · rw [if_neg (fun hand => hx hand.2)]
      refine iff_of_true rfl ?_
      rintro ⟨x, h1, h2, h3, h4⟩
      exact hx (le_trans (max_le h1 h3) (le_min h2 h4))
  · rw [hS, hT]
    by_cases hx : max a.val c.val ≤ min b.val d.val
    · rw [if_pos ⟨hvac, hx⟩, if_pos ⟨hvac.symm, by rwa [Nat.max_comm, Nat.min_comm]⟩]
      exact iff_of_false (by simp) (by simp)
    · rw [if_neg (fun hand => hx hand.2), if_neg (fun hand => hx (by
        have h2 := hand.2
        rwa [Nat.max_comm, Nat.min_comm] at h2))]

/-- Witness for C4: DHCP `192.168.1.10-50` against inspection
`192.168.1.40-60` fails in both argument orders (specification scenario
2), while against inspection `192.168.1.100-150` it succeeds in both
orders. -/
theorem no_overlap_witness :
    _validate_no_overlap overlapSubnet ≠ Except.ok () ∧
    _validate_no_overlap overlapSubnetSwapped ≠ Except.ok () ∧
    _validate_no_overlap goodSubnet = Except.ok () ∧
    _validate_no_overlap goodSubnetSwapped = Except.ok () := by
  have h := no_overlap_iff_disjoint_symm overlapSubnet overlapSubnetSwapped
    ⟨4, 3232235786⟩ ⟨4, 3232235826⟩ ⟨4, 3232235816⟩ ⟨4, 3232235836⟩
    "192.168.1.60" "192.168.1.50"
    (by decide) (by decide) (by decide) (by decide) (by decide)
    (by decide) (by decide) (by decide) (by decide) (by decide)
    rfl rfl rfl (by decide) (by decide)
  have hg := no_overlap_iff_disjoint_symm goodSubnet goodSubnetSwapped
    ⟨4, 3232235786⟩ ⟨4, 3232235826⟩ ⟨4, 3232235876⟩ ⟨4, 3232235926⟩
    "192.168.1.150" "192.168.1.50"
    (by decide) (by decide) (by decide) (by decide) (by decide)
    (by decide) (by decide) (by decide) (by decide) (by decide)
    rfl rfl rfl (by decide) (by decide)
  refine ⟨?_, ?_, ?_, ?_⟩
  · intro hok
    exact (h.1.mp hok) ⟨3232235816, by decide, by decide, by decide, by decide⟩
  · intro hok
    exact (h.1.mp (h.2.mpr hok)) ⟨3232235816, by decide, by decide, by decide, by decide⟩
  · exact hg.1.mpr (by rintro ⟨x, h1, h2, h3, h4⟩; dsimp only at h1 h2 h3 h4; omega)
  · exact hg.2.mp (hg.1.mpr (by
      rintro ⟨x, h1, h2, h3, h4⟩; dsimp only at h1 h2 h3 h4; omega))

/-- C7 counterexample: comparing an IPv4 dhcp start against an IPv6 dhcp
end in the range-order check yields a silent boolean result — the check
passes — rather than any FormatInvalid error. -/
theorem mixed_family_dhcp_range_silent :
    netaddr_IPAddress mixedFamilySubnet.dhcp_start = Except.ok ⟨4, 3232235786⟩ ∧
    netaddr_IPAddress mixedFamilySubnet.dhcp_end = Except.ok ⟨6, 1⟩ ∧
    _validate_dhcp_range mixedFamilySubnet = Except.ok () :=
  ⟨by decide, by decide, by decide⟩

/-- C7 as amended: mixed-family comparisons never raise FormatInvalid:
both range-order checks (dhcp and inspection) order addresses
lexicographically by (version, value), so an IPv4 start always sorts
before an IPv6 end and they silently succeed; the CIDR containment test
reduces to a raw-integer-value boolean that ignores the address family
entirely (failing, when it fails, as a not-in-CIDR validation error,
never a format error); only the overlap check's `IPRange` construction
rejects a mixed-family range, and it does so with an `AddrFormatError`
that the orchestrator's handlers do not catch. -/
theorem mixed_family_comparisons (s : SubnetProps) (a b c d : IPAddr) (i1 : String)
    (ha : netaddr_IPAddress s.dhcp_start = Except.ok a)
    (hb : netaddr_IPAddress s.dhcp_end = Except.ok b)
    (h4 : a.version = 4) (h6 : b.version = 6)
    (hs1 : (strSplitOnChar ',' s.inspection_iprange).get? 1 = some i1)
    (hc : netaddr_IPAddress ((strSplitOnChar ',' s.inspection_iprange).headD "") =
      Except.ok c)
    (hd : netaddr_IPAddress i1 = Except.ok d)
    (hc4 : c.version = 4) (hd6 : d.version = 6) :
    _validate_dhcp_range s = Except.ok () ∧
    _validate_inspection_range s = Except.ok () ∧
    (∀ (n : IPNetwork) (addr pretty_name : String) (require_ip : Bool) (x : IPAddr),
      netaddr_IPAddress addr = Except.ok x →
      validate_addr_in_cidr n addr pretty_name require_ip =
        if ipnetwork_contains n x then Except.ok ()
        else Except.error (Exn.failedValidation
          ("Config option " ++ pretty_name ++ " " ++ addr ++ " not in defined CIDR"))) ∧
    (∀ (n : IPNetwork) (x : IPAddr) (v : Nat),
      ipnetwork_contains n x = ipnetwork_contains n ⟨v, x.val⟩) ∧
    (∃ m, _validate_no_overlap s = Except.error (Exn.addrFormatError m) ∧
      classify (Exn.addrFormatError m) =
        CheckOutcome.uncaught (Exn.addrFormatError m)) := by
  refine ⟨?_, ?_, ?_, ?_, ?_⟩
  · unfold _validate_dhcp_range
    simp only [ha, hb]
    have hge : ipaddr_ge a b = false := by
      simp [ipaddr_ge, ipaddr_lt, h4, h6]
    simp [hge]
  · unfold _validate_inspection_range
    simp only [hc, hs1, hd]
    have hge : ipaddr_ge c d = false := by
      simp [ipaddr_ge, ipaddr_lt, hc4, hd6]
    simp [hge]
  · intro n addr pretty_name require_ip x hx
    unfold validate_addr_in_cidr validate_ip_in_cidr
    simp only [hx]
    cases hcont : ipnetwork_contains n x <;> simp [hcont]
  · intro n x v
    rfl
  · unfold _validate_no_overlap netaddr_IPRange
    simp only [ha, hb]
    rw [if_pos (by rw [h4, h6]; decide)]
    exact ⟨_, rfl, rfl⟩

/-- Witness for the amended C7 at a subnet whose dhcp and inspection
ranges both pair an IPv4 start with an IPv6 end: both order checks pass
silently, the containment test on an IPv6 address against the IPv4 CIDR
yields the raw-value boolean outcome (not-in-CIDR), and the overlap
check raises an address-format error. -/
theorem mixed_family_comparisons_witness :
    _validate_dhcp_range mixedBothSubnet = Except.ok () ∧
    _validate_inspection_range mixedBothSubnet = Except.ok () ∧
    validate_addr_in_cidr ⟨⟨4, 3232235776⟩, 24⟩ "::1" "gateway" true =
      Except.error (Exn.failedValidation
        ("Config option " ++ "gateway" ++ " " ++ "::1" ++ " not in defined CIDR")) ∧
    (∃ m, _validate_no_overlap mixedBothSubnet =
      Except.error (Exn.addrFormatError m)) := by
  have h := mixed_family_comparisons mixedBothSubnet
    ⟨4, 3232235786⟩ ⟨6, 1⟩ ⟨4, 3232235876⟩ ⟨6, 2⟩ "::2"
    (by decide) (by decide) rfl rfl (by decide) (by decide) (by decide) rfl rfl
  refine ⟨h.1, h.2.1, ?_, ?_⟩
  · rw [h.2.2.1 ⟨⟨4, 3232235776⟩, 24⟩ "::1" "gateway" true ⟨6, 1⟩ (by decide)]
    decide
  · obtain ⟨m, hm, -⟩ := h.2.2.2.2
    exact ⟨m, hm⟩

/-- C9 counterexample: a dhcp range bound that does not parse as an IP
is caught by the containment check before any range-order check runs, is
re-raised as `FailedValidation`, and the orchestrator classifies it and
exits with the documented diagnostic — the error does not escape. -/
theorem bad_dhcp_start_exits_cleanly :
    netaddr_IPAddress "foo" =
      Except.error (Exn.addrFormatError "failed to detect a valid IP address from foo") ∧
    check badDhcpStartConf goodHost =
      CheckOutcome.failed (Exn.failedValidation "Invalid IP address: foo") :=
  ⟨by decide, by decide⟩

/-- A successful containment check implies both dhcp bounds parse. -/
theorem in_cidr_ok_parses (conf : Conf) (subnet_name : String) (s : SubnetProps)
    (h1 : _validate_in_cidr conf s subnet_name = Except.ok ()) :
    (∃ a, netaddr_IPAddress s.dhcp_start = Except.ok a) ∧
    (∃ b, netaddr_IPAddress s.dhcp_end = Except.ok b) := by
  unfold _validate_in_cidr at h1
  cases hcidr : netaddr_IPNetwork s.cidr <;> rw [hcidr] at h1
  case error => exact absurd h1 (by simp)
  case ok net =>
  obtain ⟨-, h2⟩ := bind_ok_unit h1
  obtain ⟨-, h3⟩ := bind_ok_unit h2
  obtain ⟨-, h4⟩ := bind_ok_unit h3
  obtain ⟨hds, hde⟩ := bind_ok_unit h4
  unfold validate_addr_in_cidr at hds hde
  constructor
  · cases hpa : netaddr_IPAddress s.dhcp_start <;> rw [hpa] at hds
    · simp at hds
    · exact ⟨_, rfl⟩
  · cases hpb : netaddr_IPAddress s.dhcp_end <;> rw [hpb] at hde
    · simp at hde
    · exact ⟨_, rfl⟩

/-- C9 as amended: an unparsable `dhcp_start` or `dhcp_end` never
reaches the range-order check — the containment check running before it
cannot succeed on such a value (its `require_ip` branch re-raises the
parse failure as a handled `FailedValidation`) — and once the
containment check has passed, the dhcp range-order check returns either
success or a handled `FailedValidation`, never an address-format error.
Only the inspection-range bounds are first parsed inside a range check:
an unparsable inspection bound (either of them) makes the inspection
order check raise `AddrFormatError`, a class none of the orchestrator's
three handlers match, so it escapes classification uncaught; inspection
bounds that parse can likewise only produce success or a handled
`FailedValidation` there. -/
theorem range_parse_error_classification (conf : Conf) (subnet_name : String)
    (s : SubnetProps) :
    (∀ ea, netaddr_IPAddress s.dhcp_start = Except.error ea →
      _validate_in_cidr conf s subnet_name ≠ Except.ok ()) ∧
    (∀ eb, netaddr_IPAddress s.dhcp_end = Except.error eb →
      _validate_in_cidr conf s subnet_name ≠ Except.ok ()) ∧
    (_validate_in_cidr conf s subnet_name = Except.ok () →
      _validate_dhcp_range s = Except.ok () ∨
      ∃ m, _validate_dhcp_range s = Except.error (Exn.failedValidation m) ∧
        classify (Exn.failedValidation m) =
          CheckOutcome.failed (Exn.failedValidation m)) ∧
    (∀ m, netaddr_IPAddress ((strSplitOnChar ',' s.inspection_iprange).headD "") =
        Except.error (Exn.addrFormatError m) →
      _validate_inspection_range s = Except.error (Exn.addrFormatError m) ∧
      classify (Exn.addrFormatError m) =
        CheckOutcome.uncaught (Exn.addrFormatError m)) ∧
    (∀ m c i1,
      netaddr_IPAddress ((strSplitOnChar ',' s.inspection_iprange).headD "") =
        Except.ok c →
      (strSplitOnChar ',' s.inspection_iprange).get? 1 = some i1 →
      netaddr_IPAddress i1 = Except.error (Exn.addrFormatError m) →
      _validate_inspection_range s = Except.error (Exn.addrFormatError m) ∧
      classify (Exn.addrFormatError m) =
        CheckOutcome.uncaught (Exn.addrFormatError m)) ∧
    (∀ c d i1,
      netaddr_IPAddress ((strSplitOnChar ',' s.inspection_iprange).headD "") =
        Except.ok c →
      (strSplitOnChar ',' s.inspection_iprange).get? 1 = some i1 →
      netaddr_IPAddress i1 = Except.ok d →
      _validate_inspection_range s = Except.ok () ∨
      ∃ m, _validate_inspection_range s = Except.error (Exn.failedValidation m) ∧
        classify (Exn.failedValidation m) =
          CheckOutcome.failed (Exn.failedValidation m)) := by
  refine ⟨?_, ?_, ?_, ?_, ?_, ?_⟩
  · intro ea hea hok
    obtain ⟨⟨a, hpa⟩, -⟩ := in_cidr_ok_parses conf subnet_name s hok
    rw [hea] at hpa
    exact absurd hpa (by simp)
  · intro eb heb hok
    obtain ⟨-, ⟨b, hpb⟩⟩ := in_cidr_ok_parses conf subnet_name s hok
    rw [heb] at hpb
    exact absurd hpb (by simp)
  · intro hok
    obtain ⟨⟨a, hpa⟩, ⟨b, hpb⟩⟩ := in_cidr_ok_parses conf subnet_name s hok
    unfold _validate_dhcp_range
    simp only [hpa, hpb]
    cases hge : ipaddr_ge a b
    · exact Or.inl (by simp [hge])
    · exact Or.inr ⟨"Invalid dhcp range specified, dhcp_start " ++ s.dhcp_start ++
        " does not come before dhcp_end " ++ s.dhcp_end, by simp [hge], rfl⟩
  · intro m hm
    unfold _validate_inspection_range
    simp only [hm]
    exact ⟨by trivial, rfl⟩
  · intro m c i1 hc h1 hi
    unfold _validate_inspection_range
    simp only [hc, h1, hi]
    exact ⟨by trivial, rfl⟩
  · intro c d i1 hc h1 hd
    unfold _validate_inspection_range
    simp only [hc, h1, hd]
    cases hge : ipaddr_ge c d
    · exact Or.inl (by simp [hge])
    · exact Or.inr ⟨"Invalid inspection range specified", by simp [hge], rfl⟩

/-- Witness for the amended C9: with dhcp start `foo` the containment
check indeed cannot succeed; with inspection start `bar` the inspection
order check raises the netaddr parse error, left uncaught by the
classifier; and on a fully parsed subnet the dhcp order check yields one
of the two handled outcomes. -/
theorem range_parse_error_classification_witness :
    _validate_in_cidr badDhcpStartConf badDhcpStartSubnet "ctlplane" ≠ Except.ok () ∧
    (_validate_inspection_range badInspSubnet =
      Except.error (Exn.addrFormatError "failed to detect a valid IP address from bar") ∧
     classify (Exn.addrFormatError "failed to detect a valid IP address from bar") =
       CheckOutcome.uncaught
         (Exn.addrFormatError "failed to detect a valid IP address from bar")) ∧
    (_validate_dhcp_range goodSubnet = Except.ok () ∨
      ∃ m, _validate_dhcp_range goodSubnet = Except.error (Exn.failedValidation m) ∧
        classify (Exn.failedValidation m) =
          CheckOutcome.failed (Exn.failedValidation m)) := by
  refine ⟨?_, ?_, ?_⟩
  · exact (range_parse_error_classification badDhcpStartConf "ctlplane"
      badDhcpStartSubnet).1
      (Exn.addrFormatError "failed to detect a valid IP address from foo") (by decide)
  · exact (range_parse_error_classification badInspConf "ctlplane" badInspSubnet).2.2.2.1
      "failed to detect a valid IP address from bar" (by decide)
  · exact (range_parse_error_classification goodConf "ctlplane" goodSubnet).2.2.1
      (by decide)

/-- C10: the no-IP-change check silently succeeds when the prior
os-net-config file is absent or has no br-ctlplane entry; with an entry
present it compares the recorded `ip_netmask` against the configured
local IP by exact string equality, so any textually different recorded
string — even one denoting the same network numerically — fails the
check. -/
theorem no_ip_change_string_compare (conf : Conf) (host : HostState) :
    (host.os_net_config = none → _validate_no_ip_change conf host = Except.ok ()) ∧
    (∀ ncfg, host.os_net_config = some ncfg →
      (ncfg.network_config.filter (fun i => i.name = "br-ctlplane")).head? = none →
      _validate_no_ip_change conf host = Except.ok ()) ∧
    (∀ ncfg ctlplane entry,
      host.os_net_config = some ncfg →
      (ncfg.network_config.filter (fun i => i.name = "br-ctlplane")).head? = some ctlplane →
      ctlplane.addresses.head? = some entry →
      ((_validate_no_ip_change conf host = Except.ok () ↔
          entry.ip_netmask = conf.local_ip) ∧
        (entry.ip_netmask ≠ conf.local_ip →
          netaddr_IPNetwork entry.ip_netmask = netaddr_IPNetwork conf.local_ip →
          _validate_no_ip_change conf host =
            Except.error (Exn.failedValidation
              ("Changing the local_ip is not allowed. Existing IP: " ++ entry.ip_netmask ++
                ", Configured IP: " ++ conf.local_ip))))) := by
  refine ⟨?_, ?_, ?_⟩
  · intro h
    unfold _validate_no_ip_change
    rw [h]
  · intro ncfg h hf
    unfold _validate_no_ip_change
    simp only [h, hf]
  · intro ncfg ctlplane entry h hf he
    unfold _validate_no_ip_change
    simp only [h, hf, he]
    constructor
    · by_cases heq : entry.ip_netmask = conf.local_ip
      · simp [heq]
      · simp [heq]
    · intro hne _
      rw [if_pos hne]

/-- Witness for C10: an absent file passes, a config without br-ctlplane
passes, and a recorded `192.168.001.1/24` — numerically equal to the
configured `192.168.1.1/24` but textually different — fails. -/
theorem no_ip_change_string_compare_witness :
    _validate_no_ip_change goodConf goodHost = Except.ok () ∧
    _validate_no_ip_change goodConf noCtlplaneHost = Except.ok () ∧
    "192.168.001.1/24" ≠ goodConf.local_ip ∧
    netaddr_IPNetwork "192.168.001.1/24" = netaddr_IPNetwork goodConf.local_ip ∧
    _validate_no_ip_change goodConf ipChangeHost =
      Except.error (Exn.failedValidation
        ("Changing the local_ip is not allowed. Existing IP: " ++ "192.168.001.1/24" ++
          ", Configured IP: " ++ "192.168.1.1/24")) := by
  refine ⟨?_, ?_, by decide, by decide, ?_⟩
  · exact (no_ip_change_string_compare goodConf goodHost).1 (by decide)
  · exact (no_ip_change_string_compare goodConf noCtlplaneHost).2.1
      ⟨[⟨"em1", [⟨"10.0.0.5/24"⟩]⟩]⟩ (by decide) (by decide)
  · exact ((no_ip_change_string_compare goodConf ipChangeHost).2.2
      ⟨[⟨"br-ctlplane", [⟨"192.168.001.1/24"⟩]⟩]⟩
      ⟨"br-ctlplane", [⟨"192.168.001.1/24"⟩]⟩ ⟨"192.168.001.1/24"⟩
      (by decide) (by decide) (by decide)).2 (by decide) (by decide)

end UndercloudPreflight
